import Mathlib

/-!
# Writers Toolkit v2 — verification of the Tool Execution Pipeline

Shallow embedding of the core pipeline of `cleesmith/writers-toolkit-v2`:
the Claude API service (`src/claude-api/client.js`), the base tool helpers
(`src/tools/base-tool.js`), the consistency checker
(`src/tools/consistency-checker.js`), the tool template
(`src/tools/tool-template.js`) and the tokens/words counter
(`src/tools/tokens-words-counter.js`).

JavaScript numbers used for token arithmetic stay well inside the exact
integer range, so they are embedded as `Int`.  Strings are Lean `String`.
Filesystem and network effects are made explicit: file reads take a
`String → Option String` snapshot of the filesystem, and the tool bodies
return the ordered list of side-effect events they perform alongside their
`Except` result.
-/

namespace WritersToolkit

/-! ## Configuration (src/claude-api/client.js, constructor + validateConfig) -/

/-- The stored configuration of `ClaudeAPIService` (`this.config`), after
validation: every numeric field present.  Field names follow the source. -/
structure ClaudeConfig where
  max_retries : Int
  request_timeout : Int
  context_window : Int
  thinking_budget_tokens : Int
  betas_max_tokens : Int
  desired_output_tokens : Int
  model_name : String
  betas : String
  max_thinking_budget : Int
deriving Repr, DecidableEq

/-- A "validated" configuration in the sense of the spec's Configuration
invariant: all numeric fields are non-negative. -/
def ValidConfig (c : ClaudeConfig) : Prop :=
  0 ≤ c.max_retries ∧ 0 ≤ c.request_timeout ∧ 0 ≤ c.context_window ∧
  0 ≤ c.thinking_budget_tokens ∧ 0 ≤ c.betas_max_tokens ∧
  0 ≤ c.desired_output_tokens ∧ 0 ≤ c.max_thinking_budget

instance (c : ClaudeConfig) : Decidable (ValidConfig c) := by
  unfold ValidConfig; infer_instance

/-! ## Token budget calculator (src/claude-api/client.js:194-233) -/

/-- The object returned by `calculateTokenBudgets`. -/
structure TokenBudgets where
  contextWindow : Int
  promptTokens : Int
  availableTokens : Int
  maxTokens : Int
  thinkingBudget : Int
  desiredOutputTokens : Int
  betasMaxTokens : Int
  configuredThinkingBudget : Int
  capThinkingBudget : Bool
  isPromptTooLarge : Bool
deriving Repr, DecidableEq

/-- `ClaudeAPIService.calculateTokenBudgets` (client.js:194-233), verbatim:
`availableTokens = contextWindow - promptTokens` (unclamped),
`maxTokens = min(availableTokens, betasMaxTokens)`,
`thinkingBudget = maxTokens - desiredOutputTokens` then clamped to
`maxThinkingBudget` when it exceeds it (`capThinkingBudget` records the
clamp), and `isPromptTooLarge = thinkingBudget < configuredThinkingBudget`
on the post-clamp value. -/
def calculateTokenBudgets (cfg : ClaudeConfig) (promptTokens : Int) : TokenBudgets :=
  let contextWindow := cfg.context_window
  let desiredOutputTokens := cfg.desired_output_tokens
  let configuredThinkingBudget := cfg.thinking_budget_tokens
  let betasMaxTokens := cfg.betas_max_tokens
  let maxThinkingBudget := cfg.max_thinking_budget
  let availableTokens := contextWindow - promptTokens
  let maxTokens := min availableTokens betasMaxTokens
  let thinkingBudget0 := maxTokens - desiredOutputTokens
  let capThinkingBudget := thinkingBudget0 > maxThinkingBudget
  let thinkingBudget := if capThinkingBudget then maxThinkingBudget else thinkingBudget0
  let isPromptTooLarge := thinkingBudget < configuredThinkingBudget
  { contextWindow := contextWindow
    promptTokens := promptTokens
    availableTokens := availableTokens
    maxTokens := maxTokens
    thinkingBudget := thinkingBudget
    desiredOutputTokens := desiredOutputTokens
    betasMaxTokens := betasMaxTokens
    configuredThinkingBudget := configuredThinkingBudget
    capThinkingBudget := decide capThinkingBudget
    isPromptTooLarge := decide isPromptTooLarge }

/-! ## Reading input files (src/tools/base-tool.js:473-486) -/

/-- A snapshot of the filesystem: the content of each readable file, `none`
for a path whose read fails with `ENOENT`. -/
def FileSystem : Type := String → Option String

/-- JavaScript `content.trim()` is the empty string exactly when every
character of `content` is whitespace; `!content.trim()` is embedded as this
all-whitespace test. -/
def isBlank (content : String) : Bool :=
  content.data.all (fun c => c.isWhitespace)

/-- `BaseTool.readInputFile` (base-tool.js:473-486): an `ENOENT` read becomes
the `File not found` error, a file whose content trims to empty becomes the
`File is empty` error, and otherwise the exact content is returned. -/
def readInputFile (fs : FileSystem) (filePath : String) : Except String String :=
  match fs filePath with
  | none => Except.error ("File not found: " ++ filePath)
  | some content =>
    if isBlank content then Except.error ("File is empty: " ++ filePath)
    else Except.ok content

/-- A one-file filesystem whose single document is a lone space. -/
def blankFS : FileSystem :=
  fun q => if q = "/docs/blank.txt" then some " " else none

/-- A two-file demo filesystem. -/
def demoFS : FileSystem :=
  fun q => if q = "/docs/manuscript.txt" then some "hello" else none

/-! ## Constructor validation (src/claude-api/client.js:59-77) -/

/-- The raw constructor argument of `ClaudeAPIService` before validation:
each of the nine required settings may be present or absent (`none` embeds
the JavaScript `undefined` read of a missing property). -/
structure RawConfig where
  max_retries : Option Int
  request_timeout : Option Int
  context_window : Option Int
  thinking_budget_tokens : Option Int
  betas_max_tokens : Option Int
  desired_output_tokens : Option Int
  model_name : Option String
  betas : Option String
  max_thinking_budget : Option Int
deriving Repr, DecidableEq

/-- The dynamic property read `config[setting] !== undefined` for each
required setting name. -/
def hasSetting (c : RawConfig) (name : String) : Bool :=
  match name with
  | "max_retries" => c.max_retries.isSome
  | "request_timeout" => c.request_timeout.isSome
  | "context_window" => c.context_window.isSome
  | "thinking_budget_tokens" => c.thinking_budget_tokens.isSome
  | "betas_max_tokens" => c.betas_max_tokens.isSome
  | "desired_output_tokens" => c.desired_output_tokens.isSome
  | "model_name" => c.model_name.isSome
  | "betas" => c.betas.isSome
  | "max_thinking_budget" => c.max_thinking_budget.isSome
  | _ => false

/-- `requiredSettings` (client.js:60-70). -/
def requiredSettings : List String :=
  ["max_retries", "request_timeout", "context_window", "thinking_budget_tokens",
   "betas_max_tokens", "desired_output_tokens", "model_name", "betas",
   "max_thinking_budget"]

/-- `requiredSettings.filter(setting => config[setting] === undefined)`
(client.js:72). -/
def missingSettings (c : RawConfig) : List String :=
  requiredSettings.filter fun s => ! hasSetting c s

/-- `validateConfig` (client.js:59-77): throws when at least one required
setting is missing, with a message enumerating the missing names. -/
def validateConfig (c : RawConfig) : Except String Unit :=
  if (missingSettings c).length > 0 then
    Except.error ("Missing required Claude API settings: "
      ++ String.intercalate ", " (missingSettings c)
      ++ ". Check API Settings configuration.")
  else
    Except.ok ()

/-! ## Streaming (src/claude-api/client.js:148-187 with the accumulating
callbacks of consistency-checker.js:154-161 / tool-template.js:270-277) -/

/-- One event of the SDK stream as inspected by `streamWithThinking`:
a `content_block_delta` whose delta is a `thinking_delta`, one whose delta is
a `text_delta`, or any other event (ignored by the loop). -/
inductive StreamEvent where
  | thinkingDelta (s : String)
  | textDelta (s : String)
  | otherEvent
deriving Repr, DecidableEq

/-- One iteration of the `for await (const event of stream)` loop of
`streamWithThinking`, with the callbacks the tools install:
`onThinking` appends the delta to the accumulated thinking text and `onText`
appends the delta to the accumulated visible text; every other event is
ignored.  The accumulator is the pair
`(thinkingContent, fullResponse)`. -/
def applyStreamEvent (acc : String × String) (e : StreamEvent) : String × String :=
  match e with
  | .thinkingDelta s => (acc.1 ++ s, acc.2)
  | .textDelta s => (acc.1, acc.2 ++ s)
  | .otherEvent => acc

/-- Running the whole stream: events are consumed strictly in arrival order,
starting from empty accumulators (`let fullResponse = ""`,
`let thinkingContent = ""`). -/
def streamAccumulate (events : List StreamEvent) : String × String :=
  events.foldl applyStreamEvent ("", "")

/-- The thinking deltas of a stream, in arrival order. -/
def thinkingDeltas (events : List StreamEvent) : List String :=
  events.filterMap fun e =>
    match e with
    | .thinkingDelta s => some s
    | _ => none

/-- The visible-text deltas of a stream, in arrival order. -/
def textDeltas (events : List StreamEvent) : List String :=
  events.filterMap fun e =>
    match e with
    | .textDelta s => some s
    | _ => none

/-! ## POSIX path model (Node `path` module, as used by the tools)

The tools use `path.isAbsolute`, `path.join` and `path.resolve` from Node's
`path` module.  Node's POSIX `isAbsolute` tests whether the first character
is a slash; `join` concatenates the non-empty arguments with `/` and
normalizes; `normalize` splits on `/`, resolves `.` and `..` segments
(dropping excess `..` at the root of an absolute path, keeping it in a
relative path) and rejoins.  Trailing-slash preservation is irrelevant here
(the joined names never end in a slash) and is not modelled. -/

/-- Node POSIX `path.isAbsolute`: the first character is `/`. -/
def isAbsolutePath (p : String) : Bool :=
  match p.data with
  | [] => false
  | c :: _ => c == '/'

/-- Split a character list on `/` (the segment split of Node `normalize`). -/
def splitOnSlash : List Char → List (List Char)
  | [] => [[]]
  | c :: rest =>
    let r := splitOnSlash rest
    if c = '/' then [] :: r
    else
      match r with
      | [] => [[c]]
      | s :: ss => (c :: s) :: ss

/-- JavaScript `Array.prototype.join('/')`. -/
def joinSlash : List String → String
  | [] => ""
  | [s] => s
  | s :: rest => s ++ "/" ++ joinSlash rest

/-- Resolve `.` and `..` segments the way Node `normalizeString` does:
`.` is dropped, `..` pops the previous real segment, excess `..` is dropped
at the root of an absolute path and kept in a relative path. -/
def normalizeSegments (isAbs : Bool) (segs : List String) : List String :=
  (segs.foldl
    (fun acc seg =>
      if seg = "." then acc
      else if seg = ".." then
        match acc with
        | [] => if isAbs then [] else [".."]
        | top :: rest => if top = ".." then seg :: acc else rest
      else seg :: acc)
    []).reverse

/-- Node POSIX `path.normalize`. -/
def normalizePath (p : String) : String :=
  let isAbs := isAbsolutePath p
  let segs := ((splitOnSlash p.data).map String.mk).filter (fun s => s ≠ "")
  let out := normalizeSegments isAbs segs
  if out = [] then (if isAbs then "/" else ".")
  else (if isAbs then "/" else "") ++ joinSlash out

/-- Node POSIX `path.join(a, b)`: non-empty parts joined with `/` and
normalized; an empty join yields `"."`. -/
def pathJoin (a b : String) : String :=
  let joined := joinSlash ([a, b].filter (fun s => s ≠ ""))
  if joined = "" then "." else normalizePath joined

/-- Node POSIX `path.resolve(p)` from working directory `cwd`: an absolute
argument is normalized, a relative one is resolved against `cwd`. -/
def pathResolve (cwd p : String) : String :=
  if isAbsolutePath p then normalizePath p else pathJoin cwd p

/-- `ConsistencyChecker.ensureAbsolutePath`
(consistency-checker.js:221-231; the identical helper appears in the other
tools): falsy input is returned unchanged, an absolute path is returned
unchanged, a relative path is joined onto the base path. -/
def ensureAbsolutePath (filePath basePath : String) : String :=
  if filePath = "" then filePath
  else if isAbsolutePath filePath then filePath
  else pathJoin basePath filePath

/-- A raw configuration supplying every required field except `model_name`
and `betas`. -/
def rawConfigMissingTwo : RawConfig :=
  { max_retries := some 1
    request_timeout := some 300
    context_window := some 200000
    thinking_budget_tokens := some 32000
    betas_max_tokens := some 128000
    desired_output_tokens := some 12000
    model_name := none
    betas := none
    max_thinking_budget := some 32000 }

/-- The configuration used in the spec's worked numerical example, with the
configured thinking budget left as a parameter. -/
def exampleConfig (t : Int) : ClaudeConfig :=
  { max_retries := 1
    request_timeout := 300
    context_window := 200000
    thinking_budget_tokens := t
    betas_max_tokens := 128000
    desired_output_tokens := 12000
    model_name := "claude-3-7-sonnet-20250219"
    betas := "output-128k-2025-02-19"
    max_thinking_budget := 32000 }

/-! ## Side effects of a tool run

A tool run's observable side effects are modelled as an ordered event list:
filesystem writes, adapter calls and file-cache operations.  Progress text
routed through `emitOutput` and console logging are presentation only and
are not modelled. -/

/-- One observable side effect of a tool run. -/
inductive ToolEvent where
  | fsMkdirRecursive (dir : String)
  | fsWriteFile (path : String) (content : String)
  | apiCountTokens
  | apiStreamWithThinking
  | cacheClear (toolId : String)
  | cacheAddFile (toolId : String) (path : String)
deriving Repr, DecidableEq

/-- Whether an event is a file-cache operation. -/
def isCacheEvent : ToolEvent → Bool
  | .cacheClear _ => true
  | .cacheAddFile _ _ => true
  | _ => false

/-- Whether an event is an invocation of the adapter's streaming
operation. -/
def isStreamEvent : ToolEvent → Bool
  | .apiStreamWithThinking => true
  | _ => false

/-- How many times a trace invokes the adapter's streaming operation. -/
def streamCount (events : List ToolEvent) : Nat :=
  events.countP isStreamEvent

/-- `BaseTool.writeOutputFile` (base-tool.js:495-512): create the save
directory recursively, write the file at `path.join(saveDir, fileName)`, and
return the resolved absolute path.  `cwd` is the process working directory
used by `path.resolve`. -/
def writeOutputFile (cwd content saveDir fileName : String) :
    List ToolEvent × String :=
  ([ToolEvent.fsMkdirRecursive saveDir,
    ToolEvent.fsWriteFile (pathJoin saveDir fileName) content],
   pathResolve cwd (pathJoin saveDir fileName))

/-- Split a character list on runs of characters satisfying `p`. -/
def splitOnPred (p : Char → Bool) : List Char → List (List Char)
  | [] => [[]]
  | c :: rest =>
    let r := splitOnPred p rest
    if p c then [] :: r
    else
      match r with
      | [] => [[c]]
      | s :: ss => (c :: s) :: ss

/-- `countWords` (consistency-checker.js:238-240, and identically in the
other tools): `text.split(/\s+/).filter(word => word.length > 0).length` —
the number of maximal non-whitespace runs. -/
def countWords (text : String) : Nat :=
  ((splitOnPred (fun c => c.isWhitespace) text.data).filter
    (fun w => w ≠ [])).length

/-- The run-statistics block of the consistency checker's thinking file
(consistency-checker.js:484-494). -/
def consistencyStats (cfg : ClaudeConfig) (dateTimeStr checkType : String)
    (promptTokens responseTokens : Int) : String :=
  "\nDetails:  " ++ dateTimeStr
    ++ "\nCheck type: " ++ checkType ++ " consistency check"
    ++ "\nMax request timeout: " ++ toString cfg.request_timeout ++ " seconds"
    ++ "\nMax AI model context window: " ++ toString cfg.context_window ++ " tokens"
    ++ "\nAI model thinking budget: " ++ toString cfg.thinking_budget_tokens ++ " tokens"
    ++ "\nDesired output tokens: " ++ toString cfg.desired_output_tokens ++ " tokens"
    ++ "\n\nInput tokens: " ++ toString promptTokens
    ++ "\nOutput tokens: " ++ toString responseTokens ++ "\n"

/-- The base filename of a consistency report
(consistency-checker.js:476-478). -/
def consistencyBaseFilename (checkType description timestamp : String) : String :=
  "consistency_" ++ checkType
    ++ (if description ≠ "" then "_" ++ description else "")
    ++ "_" ++ timestamp

/-- The content of the companion thinking file
(consistency-checker.js:507-515). -/
def consistencyThinkingContent (cfg : ClaudeConfig)
    (dateTimeStr checkType thinking : String)
    (promptTokens responseTokens : Int) : String :=
  "=== CONSISTENCY CHECK TYPE ===\n" ++ checkType
    ++ "\n\n=== AI\x27S THINKING PROCESS ===\n\n" ++ thinking
    ++ "\n\n=== END AI\x27S THINKING PROCESS ===\n"
    ++ consistencyStats cfg dateTimeStr checkType promptTokens responseTokens

/-- The `noMarkdown` instruction shared by the prompt templates
(consistency-checker.js:251). -/
def noMarkdown : String := "IMPORTANT: - NO Markdown formatting"

/-- The `world` prompt template (consistency-checker.js:254-308). -/
def worldPrompt (outlineContent worldContent manuscriptContent : String) : String :=
  "=== OUTLINE ===\n" ++ outlineContent ++ "\n=== END OUTLINE ===\n\n"
    ++ "=== WORLD ===\n" ++ worldContent ++ "\n=== END WORLD ===\n\n"
    ++ "=== MANUSCRIPT ===\n" ++ manuscriptContent ++ "\n=== END MANUSCRIPT ===\n\n"
    ++ noMarkdown ++ "\n\n"
    ++ "You are an expert fiction editor with exceptional attention to detail.\n"
    ++ "Using the WORLD document as the established source of truth, analyze\n"
    ++ "the MANUSCRIPT for any inconsistencies or contradictions with the\n"
    ++ "established facts. Focus on:\n\n"
    ++ "1. CHARACTER CONSISTENCY:\n"
    ++ "   - Are characters acting in ways that match their established\n"
    ++ "     personality traits?\n"
    ++ "   - Does dialogue reflect their documented speech patterns and\n"
    ++ "     knowledge level?\n"
    ++ "   - Are relationships developing consistently with established\n"
    ++ "     dynamics?\n"
    ++ "   - Are physical descriptions matching those in the WORLD document?\n\n"
    ++ "2. SETTING & WORLD CONSISTENCY:\n"
    ++ "   - Are locations described consistently with their established\n"
    ++ "     features?\n"
    ++ "   - Does the manuscript respect the established rules of the world?\n\n"
    ++ "3. TIMELINE COHERENCE:\n"
    ++ "   - Does the manuscript respect the established historical events and\n"
    ++ "     their sequence?\n"
    ++ "   - Are there any temporal contradictions with established dates?\n"
    ++ "   - Is character knowledge appropriate for their place in the\n"
    ++ "     timeline?\n"
    ++ "   - Are seasonal elements consistent with the story\x27s temporal\n"
    ++ "     placement?\n\n"
    ++ "4. THEMATIC INTEGRITY:\n"
    ++ "   - Are the established themes being consistently developed?\n"
    ++ "   - Are symbolic elements used consistently with their established meanings?\n\n"
    ++ "For each inconsistency, provide:\n"
    ++ "- The specific element in the manuscript that contradicts the WORLD\n"
    ++ "- The established fact in the WORLD it contradicts\n"
    ++ "- The location in the manuscript where this occurs using verbatim text\n"
    ++ "- A suggested correction that would maintain narrative integrity\n\n"
    ++ "Use the extensive thinking space to thoroughly cross-reference the\n"
    ++ "manuscript against the story\x27s world before identifying issues.\n"

/-- The `internal` prompt template (consistency-checker.js:310-355). -/
def internalPrompt (manuscriptContent : String) : String :=
  "=== MANUSCRIPT ===\n" ++ manuscriptContent ++ "\n=== END MANUSCRIPT ===\n\n"
    ++ noMarkdown ++ "\n\n"
    ++ "You are an expert fiction editor focusing on internal narrative\n"
    ++ "consistency. Analyze the MANUSCRIPT to identify elements that are\n"
    ++ "internally inconsistent or contradictory, regardless of the\n"
    ++ "established story world. Focus on:\n\n"
    ++ "1. NARRATIVE CONTINUITY:\n"
    ++ "   - Events that contradict earlier established facts within the\n"
    ++ "     manuscript itself\n"
    ++ "   - Description inconsistencies (characters, objects, settings\n"
    ++ "     changing without explanation)\n"
    ++ "   - Dialogue that contradicts earlier statements by the same\n"
    ++ "     character\n"
    ++ "   - Emotional arcs that show sudden shifts without sufficient\n"
    ++ "     development\n\n"
    ++ "2. SCENE-TO-SCENE COHERENCE:\n"
    ++ "   - Physical positioning and transitions between locations\n"
    ++ "   - Time of day and lighting inconsistencies\n"
    ++ "   - Character presence/absence in scenes without explanation\n"
    ++ "   - Weather or environmental conditions that change illogically\n\n"
    ++ "3. PLOT LOGIC:\n"
    ++ "   - Character motivations that seem inconsistent with their actions\n"
    ++ "   - Convenient coincidences that strain credibility\n"
    ++ "   - Information that characters possess without logical means of\n"
    ++ "     acquisition\n"
    ++ "   - Plot developments that contradict earlier established rules or\n"
    ++ "     limitations\n\n"
    ++ "4. POV CONSISTENCY:\n"
    ++ "   - Shifts in viewpoint that break established narrative patterns\n"
    ++ "   - Knowledge revealed that the POV character couldn\x27t logically\n"
    ++ "     possess\n"
    ++ "   - Tone or voice inconsistencies within the same POV sections\n\n"
    ++ "For each issue found, provide:\n"
    ++ "- The specific inconsistency with exact manuscript locations\n"
    ++ "- Why it creates a continuity problem\n"
    ++ "- A suggested revision approach\n"

/-- The `development` prompt template (consistency-checker.js:357-406). -/
def developmentPrompt (outlineContent worldContent manuscriptContent : String) :
    String :=
  "=== OUTLINE ===\n" ++ outlineContent ++ "\n=== END OUTLINE ===\n\n"
    ++ "=== WORLD ===\n" ++ worldContent ++ "\n=== END WORLD ===\n\n"
    ++ "=== MANUSCRIPT ===\n" ++ manuscriptContent ++ "\n=== END MANUSCRIPT ===\n\n"
    ++ noMarkdown ++ "\n\n"
    ++ "You are an expert fiction editor analyzing character and plot\n"
    ++ "development. Track how key elements evolve throughout the manuscript\n"
    ++ "and identify any development issues:\n\n"
    ++ "1. CHARACTER ARC TRACKING:\n"
    ++ "   - For each major character, trace their development through the manuscript\n"
    ++ "   - Identify key transformation moments and their emotional progression\n"
    ++ "   - Highlight any character development that feels rushed, stalled,\n"
    ++ "     or inconsistent\n"
    ++ "   - Note if their arc is following the trajectory established in the\n"
    ++ "     WORLD document\n\n"
    ++ "2. MYSTERY DEVELOPMENT:\n"
    ++ "   - Track the progression of the central mystery\n"
    ++ "   - Ensure clues are being revealed at an appropriate pace\n"
    ++ "   - Identify any critical information that\x27s missing or presented out\n"
    ++ "     of logical sequence\n"
    ++ "   - Check if red herrings and misdirections are properly balanced\n"
    ++ "     with genuine progress\n\n"
    ++ "3. RELATIONSHIP EVOLUTION:\n"
    ++ "   - Track how key relationships develop\n"
    ++ "   - Ensure relationship changes are properly motivated and paced\n"
    ++ "   - Identify any significant jumps in relationship dynamics that need\n"
    ++ "     development\n\n"
    ++ "4. THEME DEVELOPMENT:\n"
    ++ "   - Track how the core themes from the WORLD document are being\n"
    ++ "     developed\n"
    ++ "   - Identify opportunities to strengthen thematic elements\n"
    ++ "   - Note if any established themes are being neglected\n\n"
    ++ "Provide a structured analysis showing the progression points for each\n"
    ++ "tracked element, identifying any gaps, pacing issues, or development\n"
    ++ "opportunities.\n"

/-- The `unresolved` prompt template (consistency-checker.js:408-442). -/
def unresolvedPrompt (manuscriptContent : String) : String :=
  "=== MANUSCRIPT ===\n" ++ manuscriptContent ++ "\n=== END MANUSCRIPT ===\n\n"
    ++ noMarkdown ++ "\n\n"
    ++ "You are an expert fiction editor specializing in narrative\n"
    ++ "completeness. Analyze the MANUSCRIPT to identify elements that have\n"
    ++ "been set up but not resolved:\n\n"
    ++ "1. UNRESOLVED PLOT ELEMENTS:\n"
    ++ "   - Mysteries or questions raised but not answered\n"
    ++ "   - Conflicts introduced but not addressed\n"
    ++ "   - Promises made to the reader (through foreshadowing or explicit\n"
    ++ "     setup) without payoff\n"
    ++ "   - Character goals established but not pursued\n\n"
    ++ "2. CHEKHOV\x27S GUNS:\n"
    ++ "   - Significant objects introduced but not used\n"
    ++ "   - Skills or abilities established but never employed\n"
    ++ "   - Locations described in detail but not utilized in the plot\n"
    ++ "   - Information revealed but not made relevant\n\n"
    ++ "3. CHARACTER THREADS:\n"
    ++ "   - Side character arcs that begin but don\x27t complete\n"
    ++ "   - Character-specific conflicts that don\x27t reach resolution\n"
    ++ "   - Backstory elements introduced but not integrated into the main\n"
    ++ "     narrative\n"
    ++ "   - Relationship dynamics that are established but not developed\n\n"
    ++ "For each unresolved element, provide:\n"
    ++ "- What was introduced and where in the manuscript\n"
    ++ "- Why it creates an expectation of resolution\n"
    ++ "- Suggested approaches for resolution or intentional non-resolution\n"

/-- `ConsistencyChecker.createPrompt` (consistency-checker.js:250-446):
select the template for the check type; an unknown check type yields the
empty prompt. -/
def createPrompt (checkType outlineContent worldContent manuscriptContent :
    String) : String :=
  if checkType = "world" then
    worldPrompt outlineContent worldContent manuscriptContent
  else if checkType = "internal" then
    internalPrompt manuscriptContent
  else if checkType = "development" then
    developmentPrompt outlineContent worldContent manuscriptContent
  else if checkType = "unresolved" then
    unresolvedPrompt manuscriptContent
  else ""

/-- `ConsistencyChecker.saveReport` (consistency-checker.js:460-531):
writes the primary report, then — when thinking content is non-empty
(JavaScript truthiness of `thinking`) and `skipThinking` is not set — the
companion thinking file; returns the saved paths, report first.
`dateTimeStr` and `timestamp` stand for the two formatted readings of
`new Date()` (wall-clock time is an input of the model). -/
def saveReport (cfg : ClaudeConfig) (cwd dateTimeStr timestamp : String)
    (checkType content thinking : String) (promptTokens responseTokens : Int)
    (saveDir : String) (skipThinking : Bool) (description : String) :
    List ToolEvent × List String :=
  let baseFilename := consistencyBaseFilename checkType description timestamp
  let reportFilename := baseFilename ++ ".txt"
  let reportPath := pathJoin saveDir reportFilename
  let w1 := writeOutputFile cwd content saveDir reportFilename
  if thinking ≠ "" ∧ skipThinking = false then
    let thinkingFilename := baseFilename ++ "_thinking.txt"
    let thinkingPath := pathJoin saveDir thinkingFilename
    let thinkingContent :=
      consistencyThinkingContent cfg dateTimeStr checkType thinking
        promptTokens responseTokens
    let w2 := writeOutputFile cwd thinkingContent saveDir thinkingFilename
    (w1.1 ++ w2.1, [reportPath, thinkingPath])
  else
    (w1.1, [reportPath])

/-! ## Tool execution models

Wall-clock readings, the word-per-token floating-point ratio display and the
`emitOutput` progress text are presentation-only and not modelled.
The network is modelled by oracles: `countTokensOracle` gives the token
count the adapter's `countTokens` returns for a text, and `streamEvents` is
the delta sequence one `streamWithThinking` exchange delivers.
`removeMarkdown` (`BaseTool`, not part of the sources at hand beyond its
call sites) is an abstract text post-processor parameter. -/

/-- The result object of `TemplateTool.processWithClaude`
(tool-template.js:302-313), with the unmodelled timing stats omitted:
content, thinking, prompt tokens, response tokens, word count. -/
structure ProcessResult where
  content : String
  thinking : String
  promptTokens : Int
  responseTokens : Int
  wordCount : Nat
deriving Repr, DecidableEq

/-- `TemplateTool.processWithClaude` (tool-template.js:232-314): count the
prompt tokens, compute the token budgets, abort when the prompt is too
large, otherwise stream (accumulating thinking and visible deltas), count
words and response tokens, and strip residual markup. -/
def processWithClaude (cfg : ClaudeConfig) (removeMarkdown : String → String)
    (countTokensOracle : String → Int) (streamEvents : List StreamEvent)
    (prompt : String) : Except String ProcessResult × List ToolEvent :=
  let promptTokens := countTokensOracle prompt
  let tokenBudgets := calculateTokenBudgets cfg promptTokens
  if tokenBudgets.isPromptTooLarge then
    (Except.error ("Prompt is too large for "
        ++ toString tokenBudgets.configuredThinkingBudget
        ++ " thinking budget - run aborted"),
     [ToolEvent.apiCountTokens])
  else
    let acc := streamAccumulate streamEvents
    let thinkingContent := acc.1
    let fullResponse := acc.2
    let wordCount := countWords fullResponse
    let responseTokens := countTokensOracle fullResponse
    (Except.ok
      { content := removeMarkdown fullResponse
        thinking := thinkingContent
        promptTokens := promptTokens
        responseTokens := responseTokens
        wordCount := wordCount },
     [ToolEvent.apiCountTokens, ToolEvent.apiStreamWithThinking,
      ToolEvent.apiCountTokens])

/-- The options of `ConsistencyChecker.execute`
(consistency-checker.js:38-44); a missing string option is the empty
(falsy) string. -/
structure CCOptions where
  manuscript_file : String
  world_file : String
  outline_file : String
  check_type : String
  skip_thinking : Bool
  check_description : String
  save_dir : String
deriving Repr, DecidableEq

/-- The result of a consistency-checker run
(consistency-checker.js:201-207). -/
structure CCResult where
  success : Bool
  outputFiles : List String
  statsCheckTypes : List String
deriving Repr, DecidableEq

/-- The `for (const type of checkTypes)` loop of
`ConsistencyChecker.execute` (consistency-checker.js:94-198): for each check
type build the prompt, count its tokens, compute the budgets, abort when the
prompt is too large, otherwise stream, count the response tokens, strip
markup and save the report, accumulating produced paths and events. -/
def consistencyRunChecks (cfg : ClaudeConfig) (removeMarkdown : String → String)
    (countTokensOracle : String → Int) (streamEvents : List StreamEvent)
    (cwd dateTimeStr timestamp : String)
    (outlineContent worldContent manuscriptContent saveDir : String)
    (skipThinking : Bool) (checkDescription : String) :
    List String → List String → List ToolEvent →
      Except String (List String) × List ToolEvent
  | [], files, events => (Except.ok files, events)
  | ct :: rest, files, events =>
    let prompt := createPrompt ct outlineContent worldContent manuscriptContent
    let promptTokens := countTokensOracle prompt
    let tokenBudgets := calculateTokenBudgets cfg promptTokens
    let events1 := events ++ [ToolEvent.apiCountTokens]
    if tokenBudgets.isPromptTooLarge then
      (Except.error ("Prompt is too large for "
          ++ toString tokenBudgets.configuredThinkingBudget
          ++ " thinking budget - run aborted"),
       events1)
    else
      let acc := streamAccumulate streamEvents
      let thinkingContent := acc.1
      let fullResponse0 := acc.2
      let responseTokens := countTokensOracle fullResponse0
      let fullResponse := removeMarkdown fullResponse0
      let saved := saveReport cfg cwd dateTimeStr timestamp ct fullResponse
        thinkingContent promptTokens responseTokens saveDir skipThinking
        checkDescription
      consistencyRunChecks cfg removeMarkdown countTokensOracle streamEvents
        cwd dateTimeStr timestamp outlineContent worldContent manuscriptContent
        saveDir skipThinking checkDescription rest (files ++ saved.2)
        (events1
          ++ [ToolEvent.apiStreamWithThinking, ToolEvent.apiCountTokens]
          ++ saved.1)

/-- The save directory a tool run resolves to:
`options.save_dir || appState.CURRENT_PROJECT_PATH`. -/
def resolveSaveDir (optSaveDir currentProjectPath : String) : String :=
  if optSaveDir ≠ "" then optSaveDir else currentProjectPath

/-- `ConsistencyChecker.execute` (consistency-checker.js:34-213): resolve
the save directory (hard error when absent), make the document paths
absolute, read manuscript, optional outline and world documents, expand the
check types (`all` means all four) and run the check loop.  Note the
imported file cache (consistency-checker.js:5) is never touched. -/
def consistencyCheckerExecute (cfg : ClaudeConfig)
    (removeMarkdown : String → String) (countTokensOracle : String → Int)
    (streamEvents : List StreamEvent) (fs : FileSystem)
    (currentProjectPath cwd dateTimeStr timestamp : String)
    (opts : CCOptions) : Except String CCResult × List ToolEvent :=
  let checkType := if opts.check_type ≠ "" then opts.check_type else "world"
  let saveDir := resolveSaveDir opts.save_dir currentProjectPath
  if saveDir = "" then (Except.error "No save directory available", []) else
  let manuscriptFile := ensureAbsolutePath opts.manuscript_file saveDir
  let worldFile := ensureAbsolutePath opts.world_file saveDir
  let outlineFile :=
    if opts.outline_file ≠ "" then ensureAbsolutePath opts.outline_file saveDir
    else opts.outline_file
  match readInputFile fs manuscriptFile with
  | Except.error e => (Except.error e, [])
  | Except.ok manuscriptContent =>
    match (if outlineFile ≠ "" then readInputFile fs outlineFile
           else Except.ok "") with
    | Except.error e => (Except.error e, [])
    | Except.ok outlineContent =>
      match readInputFile fs worldFile with
      | Except.error e => (Except.error e, [])
      | Except.ok worldContent =>
        let checkTypes :=
          if checkType = "all" then
            ["world", "internal", "development", "unresolved"]
          else [checkType]
        match consistencyRunChecks cfg removeMarkdown countTokensOracle
            streamEvents cwd dateTimeStr timestamp outlineContent worldContent
            manuscriptContent saveDir opts.skip_thinking opts.check_description
            checkTypes [] [] with
        | (Except.error e, events) => (Except.error e, events)
        | (Except.ok outputFiles, events) =>
          (Except.ok
            { success := true
              outputFiles := outputFiles
              statsCheckTypes := checkTypes },
           events)

/-- Node POSIX `path.basename`: the last `/`-separated segment (the input
paths of this tool never end in a slash). -/
def pathBasename (p : String) : String :=
  String.mk ((splitOnSlash p.data).getLastD [])

/-- `path.parse(base).name`: the basename without its extension; a name
with no dot, or a lone leading dot, is returned whole. -/
def fileNameWithoutExt (base : String) : String :=
  match (base.data.reverse).dropWhile (fun c => c ≠ '.') with
  | [] => base
  | _ :: rest => if rest = [] then base else String.mk rest.reverse

/-- The options of `TokensWordsCounter.execute`
(tokens-words-counter.js). -/
structure TWCOptions where
  input_file : String
  save_dir : String
deriving Repr, DecidableEq

/-- The result of a tokens-words-counter run. -/
structure TWCResult where
  success : Bool
  outputFiles : List String
  wordCount : Nat
  tokenCount : Int
  availableTokens : Int
deriving Repr, DecidableEq

/-- `TokensWordsCounter.execute` (tokens-words-counter.js:182-297): clear
this tool's file-cache bucket, resolve the save directory, read the input
file (used as given, without `ensureAbsolutePath`), count words and tokens,
write the report, and record the produced path in the file cache.  The
config fields carry their `|| default` fallbacks in the source; with every
field present (`ClaudeConfig`) the fallbacks are inert.  `localeDateStr`
and `timestamp` are the formatted wall-clock readings and `ratioStr` the
floating-point words-per-token display, all inputs of the model; the
15-second `gentleDelay` is timing only and not modelled. -/
def tokensWordsCounterExecute (cfg : ClaudeConfig)
    (countTokensOracle : String → Int) (fs : FileSystem)
    (currentProjectPath cwd localeDateStr ratioStr timestamp : String)
    (opts : TWCOptions) : Except String TWCResult × List ToolEvent :=
  let toolName := "tokens_words_counter"
  let events0 := [ToolEvent.cacheClear toolName]
  let saveDir := resolveSaveDir opts.save_dir currentProjectPath
  if saveDir = "" then (Except.error "No save directory available", events0) else
  match readInputFile fs opts.input_file with
  | Except.error e => (Except.error e, events0)
  | Except.ok text =>
    let wordCount := countWords text
    let promptTokens := countTokensOracle text
    let contextWindow := cfg.context_window
    let availableTokens := contextWindow - promptTokens
    let thinkingBudget := cfg.thinking_budget_tokens
    let desiredOutputTokens := cfg.desired_output_tokens
    let inputBase := pathBasename opts.input_file
    let inputName := fileNameWithoutExt inputBase
    let reportContent := "Token and Word Count Report\n"
      ++ "=========================\n\n"
      ++ "Analysis of file: " ++ opts.input_file ++ "\n"
      ++ "Generated on: " ++ localeDateStr ++ "\n\n"
      ++ "Word count: " ++ toString wordCount ++ "\n"
      ++ "Token count: " ++ toString promptTokens ++ "\n"
      ++ "Words per token ratio: " ++ ratioStr ++ "\n\n"
      ++ "Context window: " ++ toString contextWindow ++ " tokens\n"
      ++ "Available tokens: " ++ toString availableTokens ++ " tokens\n"
      ++ "Thinking budget: " ++ toString thinkingBudget ++ " tokens\n"
      ++ "Desired output tokens: " ++ toString desiredOutputTokens ++ " tokens"
    let outputFileName := "count_" ++ inputName ++ "_" ++ timestamp ++ ".txt"
    let w := writeOutputFile cwd reportContent saveDir outputFileName
    let outputFile := w.2
    (Except.ok
      { success := true
        outputFiles := [outputFile]
        wordCount := wordCount
        tokenCount := promptTokens
        availableTokens := availableTokens },
     events0 ++ w.1 ++ [ToolEvent.cacheAddFile toolName outputFile])

end WritersToolkit

namespace WritersToolkit

/-- C1: for every `promptTokens ≥ 0` and validated configuration,
`calculateTokenBudgets` returns `availableTokens = contextWindow − promptTokens`
(unclamped), `maxTokens = min(availableTokens, maxOutputTokens)`,
`thinkingBudget = maxTokens − desiredOutputTokens` clamped to
`maxThinkingBudgetTokens`, `capThinkingBudget` true exactly when the clamp
fired, and `isPromptTooLarge` true exactly when the resulting thinking budget
is strictly below the configured thinking budget. -/
theorem calculateTokenBudgets_formula (cfg : ClaudeConfig) (promptTokens : Int)
    (hp : 0 ≤ promptTokens) (hv : ValidConfig cfg) :
    (calculateTokenBudgets cfg promptTokens).availableTokens
        = cfg.context_window - promptTokens ∧
    (calculateTokenBudgets cfg promptTokens).maxTokens
        = min (cfg.context_window - promptTokens) cfg.betas_max_tokens ∧
    (calculateTokenBudgets cfg promptTokens).thinkingBudget
        = min ((calculateTokenBudgets cfg promptTokens).maxTokens
                - cfg.desired_output_tokens) cfg.max_thinking_budget ∧
    ((calculateTokenBudgets cfg promptTokens).capThinkingBudget = true
        ↔ cfg.max_thinking_budget
            < (calculateTokenBudgets cfg promptTokens).maxTokens
                - cfg.desired_output_tokens) ∧
    ((calculateTokenBudgets cfg promptTokens).isPromptTooLarge = true
        ↔ (calculateTokenBudgets cfg promptTokens).thinkingBudget
            < cfg.thinking_budget_tokens) := by
  refine ⟨rfl, rfl, ?_, ?_, ?_⟩
  · simp only [calculateTokenBudgets, gt_iff_lt]
    split <;> omega
  · simp only [calculateTokenBudgets, gt_iff_lt, decide_eq_true_eq]
  · simp only [calculateTokenBudgets, gt_iff_lt, decide_eq_true_eq]

/-- Witness for C1 at a concrete configuration and prompt size. -/
theorem calculateTokenBudgets_formula_witness :
    (0 : Int) ≤ 1000 ∧ ValidConfig (exampleConfig 32000) ∧
    ((calculateTokenBudgets (exampleConfig 32000) 1000).availableTokens
        = (exampleConfig 32000).context_window - 1000 ∧
     (calculateTokenBudgets (exampleConfig 32000) 1000).maxTokens
        = min ((exampleConfig 32000).context_window - 1000)
            (exampleConfig 32000).betas_max_tokens ∧
     (calculateTokenBudgets (exampleConfig 32000) 1000).thinkingBudget
        = min ((calculateTokenBudgets (exampleConfig 32000) 1000).maxTokens
                - (exampleConfig 32000).desired_output_tokens)
            (exampleConfig 32000).max_thinking_budget ∧
     ((calculateTokenBudgets (exampleConfig 32000) 1000).capThinkingBudget = true
        ↔ (exampleConfig 32000).max_thinking_budget
            < (calculateTokenBudgets (exampleConfig 32000) 1000).maxTokens
                - (exampleConfig 32000).desired_output_tokens) ∧
     ((calculateTokenBudgets (exampleConfig 32000) 1000).isPromptTooLarge = true
        ↔ (calculateTokenBudgets (exampleConfig 32000) 1000).thinkingBudget
            < (exampleConfig 32000).thinking_budget_tokens)) :=
  ⟨by decide, by decide,
   calculateTokenBudgets_formula (exampleConfig 32000) 1000 (by decide) (by decide)⟩

/-- Counterexample to C8 as stated: the file `/docs/blank.txt` exists with
the non-empty content `" "`, yet `readInputFile` does not return the content —
it fails with the `File is empty` error, because the code tests
`!content.trim()`, not emptiness of the raw content. -/
theorem readInputFile_claim_counterexample :
    blankFS "/docs/blank.txt" = some " " ∧ (" " : String) ≠ "" ∧
    readInputFile blankFS "/docs/blank.txt"
      = Except.error "File is empty: /docs/blank.txt" := by
  refine ⟨by decide, by decide, by rfl⟩

/-- C8 (amended): `readInputFile` fails with the `File not found` error on a
missing file and with the distinct `File is empty` error on a file whose
content trims to empty (all-whitespace, including the empty file), and
returns the file's content exactly when the file exists and has at least one
non-whitespace character. -/
theorem readInputFile_spec (fs : FileSystem) (p : String) :
    (fs p = none → readInputFile fs p = Except.error ("File not found: " ++ p)) ∧
    (∀ content, fs p = some content → isBlank content = true →
      readInputFile fs p = Except.error ("File is empty: " ++ p)) ∧
    (∀ content, fs p = some content → isBlank content = false →
      readInputFile fs p = Except.ok content) ∧
    ("File not found: " ++ p) ≠ ("File is empty: " ++ p) := by
  refine ⟨?_, ?_, ?_, ?_⟩
  · intro h
    unfold readInputFile
    rw [h]
  · intro content h hb
    unfold readInputFile
    rw [h]
    simp [hb]
  · intro content h hb
    unfold readInputFile
    rw [h]
    simp [hb]
  · intro h
    have h2 := congrArg String.length h
    rw [String.length_append, String.length_append] at h2
    simp only [show ("File not found: " : String).length = 16 from rfl,
      show ("File is empty: " : String).length = 15 from rfl] at h2
    omega

/-- Witness for C8 (amended): a present non-blank file is returned verbatim
and a missing file raises the `File not found` error. -/
theorem readInputFile_spec_witness :
    readInputFile demoFS "/docs/manuscript.txt" = Except.ok "hello" ∧
    readInputFile demoFS "/docs/missing.txt"
      = Except.error ("File not found: " ++ "/docs/missing.txt") :=
  ⟨(readInputFile_spec demoFS "/docs/manuscript.txt").2.2.1 "hello"
      (by decide) (by decide),
   (readInputFile_spec demoFS "/docs/missing.txt").1 (by decide)⟩

theorem isAbsolutePath_append (a b : String) (h : isAbsolutePath a = true) :
    isAbsolutePath (a ++ b) = true := by
  cases a with | mk d =>
  cases d with
  | nil => simp [isAbsolutePath] at h
  | cons c cs =>
    simp only [isAbsolutePath, String.data_append] at h ⊢
    simpa using h

theorem isAbsolutePath_ne_empty (q : String) (h : isAbsolutePath q = true) :
    q ≠ "" := by
  intro he
  subst he
  simp [isAbsolutePath] at h

theorem normalizePath_abs (p : String) (h : isAbsolutePath p = true) :
    isAbsolutePath (normalizePath p) = true := by
  unfold normalizePath
  simp only [h]
  split
  · decide
  · exact isAbsolutePath_append "/" _ (by decide)

theorem isAbsolutePath_pathJoin (b p : String) (hb : isAbsolutePath b = true) :
    isAbsolutePath (pathJoin b p) = true := by
  have hbne : b ≠ "" := isAbsolutePath_ne_empty b hb
  by_cases hp : p = ""
  · have hfil : [b, p].filter (fun s => s ≠ "") = [b] := by
      simp [List.filter_cons, hbne, hp]
    unfold pathJoin
    rw [hfil]
    show isAbsolutePath (if b = "" then "." else normalizePath b) = true
    rw [if_neg hbne]
    exact normalizePath_abs b hb
  · have hfil : [b, p].filter (fun s => s ≠ "") = [b, p] := by
      simp [List.filter_cons, hbne, hp]
    unfold pathJoin
    rw [hfil]
    have habs : isAbsolutePath (b ++ "/" ++ p) = true :=
      isAbsolutePath_append (b ++ "/") p (isAbsolutePath_append b "/" hb)
    show isAbsolutePath
        (if b ++ "/" ++ p = "" then "." else normalizePath (b ++ "/" ++ p)) = true
    rw [if_neg (isAbsolutePath_ne_empty _ habs)]
    exact normalizePath_abs _ habs

/-- C10: `ensureAbsolutePath` is the identity on absolute paths and on the
falsy (empty) input, joins a relative path onto the base, and is idempotent
whenever the base path is absolute. -/
theorem ensureAbsolutePath_spec (p b : String) :
    (isAbsolutePath p = true → ensureAbsolutePath p b = p) ∧
    (ensureAbsolutePath "" b = "") ∧
    (p ≠ "" → isAbsolutePath p = false → ensureAbsolutePath p b = pathJoin b p) ∧
    (isAbsolutePath b = true →
      ensureAbsolutePath (ensureAbsolutePath p b) b = ensureAbsolutePath p b) := by
  refine ⟨?_, rfl, ?_, ?_⟩
  · intro h
    unfold ensureAbsolutePath
    by_cases hp : p = ""
    · simp [hp]
    · rw [if_neg hp, if_pos h]
  · intro hne hnabs
    unfold ensureAbsolutePath
    rw [if_neg hne, if_neg (by simp [hnabs])]
  · intro hb
    by_cases hp : p = ""
    · simp [hp, ensureAbsolutePath]
    · by_cases habs : isAbsolutePath p = true
      · unfold ensureAbsolutePath
        rw [if_neg hp, if_pos habs, if_neg hp, if_pos habs]
      · have hq : isAbsolutePath (pathJoin b p) = true := isAbsolutePath_pathJoin b p hb
        unfold ensureAbsolutePath
        rw [if_neg hp, if_neg habs, if_neg (isAbsolutePath_ne_empty _ hq), if_pos hq]

/-- Witness for C10 at a relative file and an absolute base. -/
theorem ensureAbsolutePath_spec_witness :
    ensureAbsolutePath (ensureAbsolutePath "manuscript.txt" "/projects/book")
        "/projects/book"
      = ensureAbsolutePath "manuscript.txt" "/projects/book" :=
  (ensureAbsolutePath_spec "manuscript.txt" "/projects/book").2.2.2 (by decide)

/-- Counterexample to C6 as stated: a successful `saveReport` call with
`skip_thinking` NOT set (so the companion file is not "explicitly
suppressed") but empty thinking content writes no companion thinking file —
the returned path list has exactly one element, because the code guards the
companion write with JavaScript truthiness of `thinking` as well
(`if (thinking && !skipThinking)`). -/
theorem saveReport_claim_counterexample :
    (saveReport (exampleConfig 32000) "/" "d" "20250101T000000" "world"
        "report body" "" 10 20 "/save" false "").2
      = ["/save/consistency_world_20250101T000000.txt"] ∧
    ((saveReport (exampleConfig 32000) "/" "d" "20250101T000000" "world"
        "report body" "" 10 20 "/save" false "").2).length = 1 := by
  constructor
  · rfl
  · rfl

/-- C6 (amended): every successful `saveReport` call writes exactly one
primary report file and — when the thinking content is non-empty and
`skip_thinking` is not set — exactly one companion thinking file; the target
directory is created (recursively) before each write, and the returned paths
list the primary report first and the thinking file second when present,
all absolute whenever the save directory is absolute. -/
theorem saveReport_spec (cfg : ClaudeConfig)
    (cwd dateTimeStr timestamp checkType content thinking : String)
    (promptTokens responseTokens : Int) (saveDir : String)
    (skipThinking : Bool) (description : String)
    (hdir : isAbsolutePath saveDir = true) :
    (∃ tc,
      (saveReport cfg cwd dateTimeStr timestamp checkType content thinking
          promptTokens responseTokens saveDir skipThinking description).1
        = [ToolEvent.fsMkdirRecursive saveDir,
           ToolEvent.fsWriteFile
             (pathJoin saveDir
               (consistencyBaseFilename checkType description timestamp
                 ++ ".txt")) content]
          ++ (if thinking ≠ "" ∧ skipThinking = false then
                [ToolEvent.fsMkdirRecursive saveDir,
                 ToolEvent.fsWriteFile
                   (pathJoin saveDir
                     (consistencyBaseFilename checkType description timestamp
                       ++ "_thinking.txt")) tc]
              else [])) ∧
    (saveReport cfg cwd dateTimeStr timestamp checkType content thinking
        promptTokens responseTokens saveDir skipThinking description).2
      = [pathJoin saveDir
          (consistencyBaseFilename checkType description timestamp ++ ".txt")]
        ++ (if thinking ≠ "" ∧ skipThinking = false then
              [pathJoin saveDir
                (consistencyBaseFilename checkType description timestamp
                  ++ "_thinking.txt")]
            else []) ∧
    ∀ q ∈ (saveReport cfg cwd dateTimeStr timestamp checkType content thinking
        promptTokens responseTokens saveDir skipThinking description).2,
      isAbsolutePath q = true := by
  by_cases h : thinking ≠ "" ∧ skipThinking = false
  · refine ⟨⟨consistencyThinkingContent cfg dateTimeStr checkType thinking
        promptTokens responseTokens, ?_⟩, ?_, ?_⟩
    · simp [saveReport, writeOutputFile, h]
    · simp [saveReport, writeOutputFile, h]
    · intro q hq
      simp only [saveReport, writeOutputFile, if_pos h] at hq
      simp only [List.mem_cons, List.mem_singleton, List.cons_append,
        List.nil_append] at hq
      rcases hq with hq | hq | hq
      · rw [hq]; exact isAbsolutePath_pathJoin saveDir _ hdir
      · rw [hq]; exact isAbsolutePath_pathJoin saveDir _ hdir
      · cases hq
  · refine ⟨⟨"", ?_⟩, ?_, ?_⟩
    · simp [saveReport, writeOutputFile, h]
    · simp [saveReport, writeOutputFile, h]
    · intro q hq
      simp only [saveReport, writeOutputFile, if_neg h] at hq
      simp only [List.mem_singleton] at hq
      rw [hq]
      exact isAbsolutePath_pathJoin saveDir _ hdir

/-- Witness for C6 (amended): with non-empty thinking and `skip_thinking`
unset, the returned paths are the report path followed by the thinking
path. -/
theorem saveReport_spec_witness :
    (saveReport (exampleConfig 32000) "/" "d" "ts" "world" "r" "think"
        10 20 "/save" false "").2
      = ["/save/consistency_world_ts.txt",
         "/save/consistency_world_ts_thinking.txt"] :=
  (saveReport_spec (exampleConfig 32000) "/" "d" "ts" "world" "r" "think"
    10 20 "/save" false "" (by decide)).2.1

/-- C7: constructing the Claude API service fails if and only if at least one
required configuration field is absent; the missing list enumerates exactly
the absent required field names; when it fails, the error message spells out
that enumerated list; and a configuration supplying all required fields is
always accepted. -/
theorem validateConfig_spec (c : RawConfig) :
    (validateConfig c = Except.ok ()
      ↔ (c.max_retries.isSome = true ∧ c.request_timeout.isSome = true ∧
         c.context_window.isSome = true ∧ c.thinking_budget_tokens.isSome = true ∧
         c.betas_max_tokens.isSome = true ∧ c.desired_output_tokens.isSome = true ∧
         c.model_name.isSome = true ∧ c.betas.isSome = true ∧
         c.max_thinking_budget.isSome = true)) ∧
    (∀ name, name ∈ missingSettings c
      ↔ name ∈ requiredSettings ∧ hasSetting c name = false) ∧
    ((missingSettings c).length > 0 →
      validateConfig c = Except.error ("Missing required Claude API settings: "
        ++ String.intercalate ", " (missingSettings c)
        ++ ". Check API Settings configuration.")) := by
  have hnil : missingSettings c = []
      ↔ (c.max_retries.isSome = true ∧ c.request_timeout.isSome = true ∧
         c.context_window.isSome = true ∧ c.thinking_budget_tokens.isSome = true ∧
         c.betas_max_tokens.isSome = true ∧ c.desired_output_tokens.isSome = true ∧
         c.model_name.isSome = true ∧ c.betas.isSome = true ∧
         c.max_thinking_budget.isSome = true) := by
    simp [missingSettings, requiredSettings, List.filter_eq_nil_iff, hasSetting]
  have hok : validateConfig c = Except.ok () ↔ missingSettings c = [] := by
    rcases h : missingSettings c with _ | ⟨a, l⟩
    · simp [validateConfig, h]
    · simp [validateConfig, h]
  refine ⟨hok.trans hnil, ?_, ?_⟩
  · intro name
    simp [missingSettings, List.mem_filter]
  · intro hlen
    unfold validateConfig
    rw [if_pos hlen]

/-- Witness for C7: with `model_name` and `betas` absent the constructor
fails and the error message enumerates the missing names. -/
theorem validateConfig_spec_witness :
    (missingSettings rawConfigMissingTwo).length > 0 ∧
    validateConfig rawConfigMissingTwo
      = Except.error ("Missing required Claude API settings: "
          ++ String.intercalate ", " (missingSettings rawConfigMissingTwo)
          ++ ". Check API Settings configuration.") :=
  ⟨by decide, (validateConfig_spec rawConfigMissingTwo).2.2 (by decide)⟩

/-- A demo filesystem for a consistency-checker run: a manuscript and a
world document under the project directory `/p`. -/
def ccDemoFS : FileSystem :=
  fun q =>
    if q = "/p/m.txt" then some "manuscript body"
    else if q = "/p/w.txt" then some "world body"
    else none

/-- A token-count oracle under which the `world` check's prompt (which
opens with the OUTLINE block) counts 1000 tokens while every other text —
in particular the `internal` check's prompt, which opens with the
MANUSCRIPT block — counts 200000 tokens. -/
def allRunOracle : String → Int :=
  fun p => if p.data.take 7 = "=== OUT".data then 1000 else 200000

theorem saveReport_no_stream (cfg : ClaudeConfig)
    (cwd dateTimeStr timestamp checkType content thinking : String)
    (promptTokens responseTokens : Int) (saveDir : String)
    (skipThinking : Bool) (description : String) :
    streamCount ((saveReport cfg cwd dateTimeStr timestamp checkType content
      thinking promptTokens responseTokens saveDir skipThinking
      description).1) = 0 := by
  unfold saveReport
  split <;>
    simp [writeOutputFile, streamCount, List.countP_cons, isStreamEvent]

set_option maxRecDepth 4000 in
theorem consistencyRunChecks_first_overflow (cfg : ClaudeConfig)
    (removeMarkdown : String → String) (countTokensOracle : String → Int)
    (streamEvents : List StreamEvent) (cwd dateTimeStr timestamp : String)
    (outlineContent worldContent manuscriptContent saveDir : String)
    (skipThinking : Bool) (checkDescription : String)
    (ct : String) (cts2 : List String)
    (hbig : (calculateTokenBudgets cfg
        (countTokensOracle (createPrompt ct outlineContent worldContent
          manuscriptContent))).isPromptTooLarge = true) :
    ∀ (cts1 : List String),
      (∀ c ∈ cts1, (calculateTokenBudgets cfg
          (countTokensOracle (createPrompt c outlineContent worldContent
            manuscriptContent))).isPromptTooLarge = false) →
      ∀ (files : List String) (events : List ToolEvent),
        (consistencyRunChecks cfg removeMarkdown countTokensOracle
            streamEvents cwd dateTimeStr timestamp outlineContent worldContent
            manuscriptContent saveDir skipThinking checkDescription
            (cts1 ++ ct :: cts2) files events).1
          = Except.error ("Prompt is too large for "
              ++ toString (calculateTokenBudgets cfg
                  (countTokensOracle (createPrompt ct outlineContent
                    worldContent manuscriptContent))).configuredThinkingBudget
              ++ " thinking budget - run aborted") ∧
        streamCount ((consistencyRunChecks cfg removeMarkdown countTokensOracle
            streamEvents cwd dateTimeStr timestamp outlineContent worldContent
            manuscriptContent saveDir skipThinking checkDescription
            (cts1 ++ ct :: cts2) files events).2)
          = streamCount events + cts1.length := by
  intro cts1
  induction cts1 with
  | nil =>
    intro _ files events
    simp only [List.nil_append, consistencyRunChecks, hbig, if_true]
    refine ⟨trivial, ?_⟩
    simp only [streamCount, List.countP_append]
    have e1 : List.countP isStreamEvent [ToolEvent.apiCountTokens] = 0 := rfl
    rw [e1]
    simp
  | cons c cs ih =>
    intro hok files events
    have hc : (calculateTokenBudgets cfg
        (countTokensOracle (createPrompt c outlineContent worldContent
          manuscriptContent))).isPromptTooLarge = false :=
      hok c (List.mem_cons_self c cs)
    have hok2 : ∀ x ∈ cs, (calculateTokenBudgets cfg
        (countTokensOracle (createPrompt x outlineContent worldContent
          manuscriptContent))).isPromptTooLarge = false :=
      fun x hx => hok x (List.mem_cons_of_mem c hx)
    simp only [List.cons_append, consistencyRunChecks, hc, Bool.false_eq_true,
      if_false, List.append_eq]
    obtain ⟨h1, h2⟩ := ih hok2
      (files ++ (saveReport cfg cwd dateTimeStr timestamp c
        (removeMarkdown (streamAccumulate streamEvents).2)
        (streamAccumulate streamEvents).1
        (countTokensOracle (createPrompt c outlineContent worldContent
          manuscriptContent))
        (countTokensOracle (streamAccumulate streamEvents).2)
        saveDir skipThinking checkDescription).2)
      (events ++ [ToolEvent.apiCountTokens]
        ++ [ToolEvent.apiStreamWithThinking, ToolEvent.apiCountTokens]
        ++ (saveReport cfg cwd dateTimeStr timestamp c
            (removeMarkdown (streamAccumulate streamEvents).2)
            (streamAccumulate streamEvents).1
            (countTokensOracle (createPrompt c outlineContent worldContent
              manuscriptContent))
            (countTokensOracle (streamAccumulate streamEvents).2)
            saveDir skipThinking checkDescription).1)
    refine ⟨h1, ?_⟩
    rw [h2]
    have hs := saveReport_no_stream cfg cwd dateTimeStr timestamp c
      (removeMarkdown (streamAccumulate streamEvents).2)
      (streamAccumulate streamEvents).1
      (countTokensOracle (createPrompt c outlineContent worldContent
        manuscriptContent))
      (countTokensOracle (streamAccumulate streamEvents).2)
      saveDir skipThinking checkDescription
    simp only [streamCount] at hs ⊢
    rw [List.countP_append, List.countP_append, List.countP_append, hs]
    have e1 : List.countP isStreamEvent [ToolEvent.apiCountTokens] = 0 := rfl
    have e2 : List.countP isStreamEvent
        [ToolEvent.apiStreamWithThinking, ToolEvent.apiCountTokens] = 1 := rfl
    rw [e1, e2, List.length_cons]
    omega

set_option maxRecDepth 4000 in
/-- Counterexample to C2 as stated: a concrete `check_type = 'all'` run in
which the token budget computed for the second (`internal`) check reports
`isPromptTooLarge = true`; the run does abort with an error, but the
adapter's streaming operation WAS invoked for that run — for the first
(`world`) check, whose budget passed — refuting "the streaming operation is
never invoked for that run". -/
theorem promptTooLarge_claim_counterexample :
    (calculateTokenBudgets (exampleConfig 32000)
        (allRunOracle
          (createPrompt "internal" "" "world body"
            "manuscript body"))).isPromptTooLarge = true ∧
    (consistencyCheckerExecute (exampleConfig 32000) id allRunOracle []
        ccDemoFS "" "/" "d" "t0"
        ⟨"m.txt", "w.txt", "", "all", false, "", "/p"⟩).1
      = Except.error
          "Prompt is too large for 32000 thinking budget - run aborted" ∧
    ToolEvent.apiStreamWithThinking
      ∈ (consistencyCheckerExecute (exampleConfig 32000) id allRunOracle []
          ccDemoFS "" "/" "d" "t0"
          ⟨"m.txt", "w.txt", "", "all", false, "", "/p"⟩).2 := by
  refine ⟨by decide, by rfl, by decide⟩

/-- C2 (amended): whenever a computed token budget of a run reports
`isPromptTooLarge`, the run aborts with an error, and the adapter's
streaming operation is never invoked for the overflowing check nor for any
later one — the run's streaming invocations are exactly those of the checks
that preceded the first overflow.  In particular, for
`TemplateTool.processWithClaude` (tool-template.js:240-246) and for
single-check `ConsistencyChecker.execute` runs
(consistency-checker.js:124-128), where the overflowing budget is the run's
first, the streaming operation is never invoked at all. -/
theorem promptTooLarge_aborts (cfg : ClaudeConfig)
    (removeMarkdown : String → String) (countTokensOracle : String → Int)
    (streamEvents : List StreamEvent) (prompt : String) (fs : FileSystem)
    (currentProjectPath cwd dateTimeStr timestamp : String) (opts : CCOptions)
    (manuscriptContent outlineContent worldContent ct : String)
    (cts1 cts2 : List String)
    (hbig2 : (calculateTokenBudgets cfg
        (countTokensOracle prompt)).isPromptTooLarge = true)
    (hsd : resolveSaveDir opts.save_dir currentProjectPath ≠ "")
    (hm : readInputFile fs
        (ensureAbsolutePath opts.manuscript_file
          (resolveSaveDir opts.save_dir currentProjectPath))
      = Except.ok manuscriptContent)
    (ho : (if (if opts.outline_file ≠ "" then
              ensureAbsolutePath opts.outline_file
                (resolveSaveDir opts.save_dir currentProjectPath)
            else opts.outline_file) ≠ "" then
            readInputFile fs
              (if opts.outline_file ≠ "" then
                ensureAbsolutePath opts.outline_file
                  (resolveSaveDir opts.save_dir currentProjectPath)
              else opts.outline_file)
          else Except.ok "")
      = Except.ok outlineContent)
    (hw : readInputFile fs
        (ensureAbsolutePath opts.world_file
          (resolveSaveDir opts.save_dir currentProjectPath))
      = Except.ok worldContent)
    (hsplit : (if (if opts.check_type ≠ "" then opts.check_type else "world")
            = "all"
          then ["world", "internal", "development", "unresolved"]
          else [if opts.check_type ≠ "" then opts.check_type else "world"])
        = cts1 ++ ct :: cts2)
    (hok : ∀ c ∈ cts1, (calculateTokenBudgets cfg
        (countTokensOracle (createPrompt c outlineContent worldContent
          manuscriptContent))).isPromptTooLarge = false)
    (hbig : (calculateTokenBudgets cfg
        (countTokensOracle (createPrompt ct outlineContent worldContent
          manuscriptContent))).isPromptTooLarge = true) :
    ((∃ e, (processWithClaude cfg removeMarkdown countTokensOracle streamEvents
        prompt).1 = Except.error e) ∧
     ToolEvent.apiStreamWithThinking
       ∉ (processWithClaude cfg removeMarkdown countTokensOracle streamEvents
           prompt).2) ∧
    (∃ e, (consistencyCheckerExecute cfg removeMarkdown countTokensOracle
        streamEvents fs currentProjectPath cwd dateTimeStr timestamp opts).1
      = Except.error e) ∧
    streamCount ((consistencyCheckerExecute cfg removeMarkdown
        countTokensOracle streamEvents fs currentProjectPath cwd dateTimeStr
        timestamp opts).2) = cts1.length ∧
    (cts1 = [] →
      ToolEvent.apiStreamWithThinking
        ∉ (consistencyCheckerExecute cfg removeMarkdown countTokensOracle
            streamEvents fs currentProjectPath cwd dateTimeStr timestamp
            opts).2) := by
  simp only [ne_eq, ite_not] at hm ho hw hsplit
  have hpwc : processWithClaude cfg removeMarkdown countTokensOracle
      streamEvents prompt
      = (Except.error ("Prompt is too large for "
          ++ toString (calculateTokenBudgets cfg
              (countTokensOracle prompt)).configuredThinkingBudget
          ++ " thinking budget - run aborted"),
         [ToolEvent.apiCountTokens]) := by
    simp [processWithClaude, hbig2]
  obtain ⟨hrun1, hrun2⟩ := consistencyRunChecks_first_overflow cfg
    removeMarkdown countTokensOracle streamEvents cwd dateTimeStr timestamp
    outlineContent worldContent manuscriptContent
    (resolveSaveDir opts.save_dir currentProjectPath) opts.skip_thinking
    opts.check_description ct cts2 hbig cts1 hok [] []
  rcases hR : consistencyRunChecks cfg removeMarkdown countTokensOracle
      streamEvents cwd dateTimeStr timestamp outlineContent worldContent
      manuscriptContent (resolveSaveDir opts.save_dir currentProjectPath)
      opts.skip_thinking opts.check_description (cts1 ++ ct :: cts2) [] []
    with ⟨r1, r2⟩
  rw [hR] at hrun1 hrun2
  dsimp only at hrun1 hrun2
  subst hrun1
  have hexec : consistencyCheckerExecute cfg removeMarkdown countTokensOracle
      streamEvents fs currentProjectPath cwd dateTimeStr timestamp opts
      = (Except.error ("Prompt is too large for "
          ++ toString (calculateTokenBudgets cfg
              (countTokensOracle (createPrompt ct outlineContent worldContent
                manuscriptContent))).configuredThinkingBudget
          ++ " thinking budget - run aborted"),
         r2) := by
    simp only [consistencyCheckerExecute]
    simp [hsd, hm, ho, hw, hsplit, hR]
  refine ⟨⟨?_, ?_⟩, ?_, ?_, ?_⟩
  · exact ⟨"Prompt is too large for "
      ++ toString (calculateTokenBudgets cfg
          (countTokensOracle prompt)).configuredThinkingBudget
      ++ " thinking budget - run aborted", by rw [hpwc]⟩
  · rw [hpwc]
    simp
  · exact ⟨"Prompt is too large for "
      ++ toString (calculateTokenBudgets cfg
          (countTokensOracle (createPrompt ct outlineContent worldContent
            manuscriptContent))).configuredThinkingBudget
      ++ " thinking budget - run aborted", by rw [hexec]⟩
  · rw [hexec]
    simpa [streamCount] using hrun2
  · intro hnil
    subst hnil
    rw [hexec]
    have h0 : r2.countP isStreamEvent = 0 := by
      simpa [streamCount] using hrun2
    intro hmem
    exact (List.countP_eq_zero.mp h0 _ hmem) rfl

/-- Witness for C2: on a concrete single-check run whose prompt counts
200000 tokens against a 200000-token context window, the streaming call
never appears in the trace. -/
theorem promptTooLarge_aborts_witness :
    ToolEvent.apiStreamWithThinking
      ∉ (consistencyCheckerExecute (exampleConfig 32000) id (fun _ => 200000)
          [] ccDemoFS "" "/" "d" "t0"
          ⟨"m.txt", "w.txt", "", "world", false, "", "/p"⟩).2 :=
  (promptTooLarge_aborts (exampleConfig 32000) id (fun _ => 200000) [] "p"
    ccDemoFS "" "/" "d" "t0" ⟨"m.txt", "w.txt", "", "world", false, "", "/p"⟩
    "manuscript body" "" "world body" "world" [] []
    (by decide) (by decide) (by rfl) (by rfl) (by rfl) (by rfl) (by simp)
    (by decide)).2.2.2 rfl

theorem saveReport_no_cache (cfg : ClaudeConfig)
    (cwd dateTimeStr timestamp checkType content thinking : String)
    (promptTokens responseTokens : Int) (saveDir : String)
    (skipThinking : Bool) (description : String) :
    ((saveReport cfg cwd dateTimeStr timestamp checkType content thinking
        promptTokens responseTokens saveDir skipThinking description).1).all
      (fun e => ! isCacheEvent e) = true := by
  unfold saveReport
  split <;> simp [writeOutputFile, isCacheEvent]

theorem consistencyRunChecks_no_cache (cfg : ClaudeConfig)
    (removeMarkdown : String → String) (countTokensOracle : String → Int)
    (streamEvents : List StreamEvent) (cwd dateTimeStr timestamp : String)
    (outlineContent worldContent manuscriptContent saveDir : String)
    (skipThinking : Bool) (checkDescription : String) :
    ∀ (cts files : List String) (events : List ToolEvent),
      events.all (fun e => ! isCacheEvent e) = true →
      ((consistencyRunChecks cfg removeMarkdown countTokensOracle streamEvents
          cwd dateTimeStr timestamp outlineContent worldContent
          manuscriptContent saveDir skipThinking checkDescription
          cts files events).2).all (fun e => ! isCacheEvent e) = true := by
  intro cts
  induction cts with
  | nil =>
    intro files events h
    simpa [consistencyRunChecks] using h
  | cons ct rest ih =>
    intro files events h
    simp only [consistencyRunChecks]
    split
    · rw [List.all_append, h]
      decide
    · apply ih
      rw [List.all_append, List.all_append, List.all_append, h,
        saveReport_no_cache]
      decide

/-- C9: the spec's standard execution skeleton requires every tool's
`execute` to clear its file-cache bucket first and record produced paths in
the cache before returning, and `TokensWordsCounter.execute` does exactly
that; but `ConsistencyChecker.execute` performs no file-cache operation at
all on any input (its `fileCache` import is never used), so its successful
runs leave their produced paths unrecorded. -/
theorem consistencyChecker_fileCache_divergence :
    (∀ (cfg : ClaudeConfig) (removeMarkdown : String → String)
       (countTokensOracle : String → Int) (streamEvents : List StreamEvent)
       (fs : FileSystem) (currentProjectPath cwd dateTimeStr timestamp : String)
       (opts : CCOptions),
      ((consistencyCheckerExecute cfg removeMarkdown countTokensOracle
          streamEvents fs currentProjectPath cwd dateTimeStr timestamp
          opts).2).all (fun e => ! isCacheEvent e) = true) ∧
    (tokensWordsCounterExecute (exampleConfig 32000) (fun _ => 1000) ccDemoFS
        "" "/" "1/1/2025" "0.00" "t0" ⟨"/p/m.txt", "/p"⟩).2.head?
      = some (ToolEvent.cacheClear "tokens_words_counter") ∧
    ToolEvent.cacheAddFile "tokens_words_counter" "/p/count_m_t0.txt"
      ∈ (tokensWordsCounterExecute (exampleConfig 32000) (fun _ => 1000)
          ccDemoFS "" "/" "1/1/2025" "0.00" "t0" ⟨"/p/m.txt", "/p"⟩).2 ∧
    (tokensWordsCounterExecute (exampleConfig 32000) (fun _ => 1000) ccDemoFS
        "" "/" "1/1/2025" "0.00" "t0" ⟨"/p/m.txt", "/p"⟩).1
      = Except.ok
          { success := true
            outputFiles := ["/p/count_m_t0.txt"]
            wordCount := 2
            tokenCount := 1000
            availableTokens := 199000 } := by
  refine ⟨?_, by rfl, by decide, by rfl⟩
  intro cfg removeMarkdown countTokensOracle streamEvents fs currentProjectPath
    cwd dateTimeStr timestamp opts
  unfold consistencyCheckerExecute
  dsimp only
  split
  · rfl
  · split
    · rfl
    · split
      · rfl
      · split
        · rfl
        · split
          · next e events heq =>
            have hsnd := congrArg Prod.snd heq
            dsimp only at hsnd
            show (events.all fun e => ! isCacheEvent e) = true
            rw [← hsnd]
            exact consistencyRunChecks_no_cache cfg removeMarkdown
              countTokensOracle streamEvents cwd dateTimeStr timestamp
              _ _ _ _ opts.skip_thinking opts.check_description _ [] [] rfl
          · next outputFiles events heq =>
            have hsnd := congrArg Prod.snd heq
            dsimp only at hsnd
            show (events.all fun e => ! isCacheEvent e) = true
            rw [← hsnd]
            exact consistencyRunChecks_no_cache cfg removeMarkdown
              countTokensOracle streamEvents cwd dateTimeStr timestamp
              _ _ _ _ opts.skip_thinking opts.check_description _ [] [] rfl

theorem string_join_cons (s : String) (l : List String) :
    String.join (s :: l) = s ++ String.join l := by
  simp [String.join_eq, String.ext_iff, String.data_append]

theorem foldl_applyStreamEvent (events : List StreamEvent) (acc : String × String) :
    events.foldl applyStreamEvent acc
      = (acc.1 ++ String.join (thinkingDeltas events),
         acc.2 ++ String.join (textDeltas events)) := by
  induction events generalizing acc with
  | nil => simp [thinkingDeltas, textDeltas, String.join]
  | cons e es ih =>
    cases e <;>
      simp [applyStreamEvent, thinkingDeltas, textDeltas, List.filterMap_cons, ih,
        string_join_cons, String.append_assoc, thinkingDeltas, textDeltas]

/-- C4: streaming accumulation is order-preserving and chunk-invariant — the
accumulated thinking text is exactly the concatenation of the thinking deltas
in arrival order, the accumulated visible text is exactly the concatenation of
the visible deltas in arrival order, and any two delta sequences whose
per-kind concatenations agree (the same total text split into different
chunks) accumulate to identical results. -/
theorem streamAccumulate_order_preserving (events : List StreamEvent) :
    streamAccumulate events
      = (String.join (thinkingDeltas events), String.join (textDeltas events)) ∧
    ∀ events2 : List StreamEvent,
      String.join (thinkingDeltas events2) = String.join (thinkingDeltas events) →
      String.join (textDeltas events2) = String.join (textDeltas events) →
      streamAccumulate events2 = streamAccumulate events := by
  constructor
  · simpa using foldl_applyStreamEvent events ("", "")
  · intro events2 hth htx
    have h1 := foldl_applyStreamEvent events ("", "")
    have h2 := foldl_applyStreamEvent events2 ("", "")
    simp only [streamAccumulate, h1, h2, hth, htx]

/-- Witness for C4: the same total thinking text "th" and visible text "ab"
split into 4 chunks versus 2 chunks accumulate identically. -/
theorem streamAccumulate_order_preserving_witness :
    streamAccumulate
        [.thinkingDelta "t", .thinkingDelta "h", .textDelta "a", .textDelta "b"]
      = streamAccumulate [.thinkingDelta "th", .textDelta "ab"] :=
  (streamAccumulate_order_preserving [.thinkingDelta "th", .textDelta "ab"]).2
    [.thinkingDelta "t", .thinkingDelta "h", .textDelta "a", .textDelta "b"]
    (by rfl) (by rfl)

/-- C3: for every `promptTokens ≥ 0` and validated configuration, the computed
`maxTokens` never exceeds the configured maximum output tokens
(`betas_max_tokens`) and the computed `thinkingBudget` never exceeds the
configured maximum thinking budget (`max_thinking_budget`). -/
theorem calculateTokenBudgets_bounds (cfg : ClaudeConfig) (promptTokens : Int)
    (hp : 0 ≤ promptTokens) (hv : ValidConfig cfg) :
    (calculateTokenBudgets cfg promptTokens).maxTokens ≤ cfg.betas_max_tokens ∧
    (calculateTokenBudgets cfg promptTokens).thinkingBudget
        ≤ cfg.max_thinking_budget := by
  constructor
  · exact min_le_right _ _
  · simp only [calculateTokenBudgets, gt_iff_lt]
    split <;> omega

/-- Witness for C3 at a concrete configuration and prompt size. -/
theorem calculateTokenBudgets_bounds_witness :
    (0 : Int) ≤ 5000 ∧ ValidConfig (exampleConfig 32000) ∧
    ((calculateTokenBudgets (exampleConfig 32000) 5000).maxTokens
        ≤ (exampleConfig 32000).betas_max_tokens ∧
     (calculateTokenBudgets (exampleConfig 32000) 5000).thinkingBudget
        ≤ (exampleConfig 32000).max_thinking_budget) :=
  ⟨by decide, by decide,
   calculateTokenBudgets_bounds (exampleConfig 32000) 5000 (by decide) (by decide)⟩

/-- C5: with `contextWindow = 200000`, `promptTokens = 106448`,
`betas_max_tokens = 128000`, `desiredOutputTokens = 12000` and
`max_thinking_budget = 32000`, the calculator yields
`availableTokens = 93552`, `maxTokens = 93552`, `thinkingBudget = 32000`
(81552 capped), `capThinkingBudget = true`, and `isPromptTooLarge = false`
for every configured thinking budget at most 32000. -/
theorem calculateTokenBudgets_example (t : Int) (ht : t ≤ 32000) :
    (calculateTokenBudgets (exampleConfig t) 106448).availableTokens = 93552 ∧
    (calculateTokenBudgets (exampleConfig t) 106448).maxTokens = 93552 ∧
    (calculateTokenBudgets (exampleConfig t) 106448).thinkingBudget = 32000 ∧
    (calculateTokenBudgets (exampleConfig t) 106448).capThinkingBudget = true ∧
    (calculateTokenBudgets (exampleConfig t) 106448).isPromptTooLarge = false := by
  refine ⟨by norm_num [calculateTokenBudgets, exampleConfig],
          by norm_num [calculateTokenBudgets, exampleConfig],
          by norm_num [calculateTokenBudgets, exampleConfig],
          by norm_num [calculateTokenBudgets, exampleConfig], ?_⟩
  simp only [calculateTokenBudgets, exampleConfig, gt_iff_lt, decide_eq_false_iff_not,
    not_lt]
  norm_num
  omega

/-- Witness for C5 at configured thinking budget 32000. -/
theorem calculateTokenBudgets_example_witness :
    (32000 : Int) ≤ 32000 ∧
    ((calculateTokenBudgets (exampleConfig 32000) 106448).availableTokens = 93552 ∧
     (calculateTokenBudgets (exampleConfig 32000) 106448).maxTokens = 93552 ∧
     (calculateTokenBudgets (exampleConfig 32000) 106448).thinkingBudget = 32000 ∧
     (calculateTokenBudgets (exampleConfig 32000) 106448).capThinkingBudget = true ∧
     (calculateTokenBudgets (exampleConfig 32000) 106448).isPromptTooLarge = false) :=
  ⟨by decide, calculateTokenBudgets_example 32000 (by decide)⟩

end WritersToolkit
